import Mathlib

/-!
Shallow embedding of the SharpSpring lead-intake pipeline:
the payload normalizer and scorer, the per-lead orchestration of the
bulk-sync job (`src/jobs/sync-leads.ts`) and of the webhook entry point
(`src/webhooks/sharpspring-webhook.ts`), together with the merge-payload
construction shared by both.  External collaborators (the Supabase lead
store and the Slack notifier) are modelled as oracles whose responses are
passed in explicitly, so each pipeline run is a pure function of the
payload, the oracle responses and the clock.
-/

namespace SpringSync

/-- A JavaScript-like dynamic value, the shape of the loosely typed
payloads the pipeline receives (`any` in the source).  `jundefined` is
JavaScript's `undefined` (the result of reading an absent property),
`jnull` is `null`. -/
inductive JVal where
  | jundefined : JVal
  | jnull : JVal
  | jstr : String → JVal
  | jnum : Int → JVal
  | jobj : List (String × JVal) → JVal
  deriving Repr

/-- JavaScript truthiness: `undefined`, `null`, `""` and `0` are falsy,
every object is truthy. -/
def jsTruthy : JVal → Bool
  | .jundefined => false
  | .jnull => false
  | .jstr s => s ≠ ""
  | .jnum n => n ≠ 0
  | .jobj _ => true

/-- Property read `v[k]` on a value that is not `null`/`undefined`:
an absent key, or a read on a primitive, yields `undefined`. -/
def getFieldD : JVal → String → JVal
  | .jobj fs, k => ((fs.find? (fun p => p.1 = k)).map (fun p => p.2)).getD .jundefined
  | _, _ => .jundefined

/-- Property read `v[k]` as it behaves in JavaScript: reading a property
of `null` or `undefined` throws a `TypeError`. -/
def getField (v : JVal) (k : String) : Except String JVal :=
  match v with
  | .jnull => .error "TypeError: cannot read properties of null"
  | .jundefined => .error "TypeError: cannot read properties of undefined"
  | _ => .ok (getFieldD v k)

/-- JavaScript `a || b`. -/
def jsOr (a b : JVal) : JVal :=
  if jsTruthy a then a else b

/-- JavaScript `String(v)` coercion. -/
def jsToString : JVal → String
  | .jundefined => "undefined"
  | .jnull => "null"
  | .jstr s => s
  | .jnum n => toString n
  | .jobj _ => "[object Object]"

/-- JavaScript `a || ''` on strings: the empty string is replaced by the
fallback, any other string is kept. -/
def jsOrStr (a b : String) : String :=
  if a = "" then b else a

/-- `v === '1'` (strict equality against the string `"1"`), the way the
mapper decodes boolean-ish SharpSpring fields. -/
def jsStrictEqOne : JVal → Bool
  | .jstr s => s = "1"
  | _ => false

/-- `v || null` narrowed to the canonical string-or-null column type:
a truthy value is kept (coerced to its string form), anything falsy
becomes `null` (`none`). -/
def jsOrNullStr (v : JVal) : Option String :=
  if jsTruthy v then some (jsToString v) else none

/-- JavaScript `typeof v === 'object'` (true for objects and for `null`). -/
def typeofIsObject : JVal → Bool
  | .jobj _ => true
  | .jnull => true
  | _ => false

/-- `s.toLowerCase()` on a string, character by character (ASCII). -/
def strToLower (s : String) : String :=
  ⟨s.data.map Char.toLower⟩

/-- Does the character list start with the given needle? -/
def charsStartWith : List Char → List Char → Bool
  | _, [] => true
  | [], _ :: _ => false
  | c :: cs, d :: ds => c = d && charsStartWith cs ds

/-- Does the character list contain the needle as a contiguous run? -/
def charsContain : List Char → List Char → Bool
  | [], needle => needle.isEmpty
  | c :: hs, needle => charsStartWith (c :: hs) needle || charsContain hs needle

/-- Substring containment, the semantics of JavaScript
`String.prototype.includes`. -/
def containsSubstr (hay needle : String) : Bool :=
  charsContain hay.toList needle.toList

theorem charsStartWith_iff (n l : List Char) : charsStartWith l n = true ↔ n <+: l := by
  induction n generalizing l with
  | nil => simp [charsStartWith]
  | cons d ds ih =>
    cases l with
    | nil => simp [charsStartWith]
    | cons c cs =>
      simp only [charsStartWith, Bool.and_eq_true, decide_eq_true_eq, ih,
        List.cons_prefix_cons]
      exact and_congr_left (fun _ => eq_comm)

theorem charsContain_iff (n l : List Char) : charsContain l n = true ↔ n <:+: l := by
  induction l with
  | nil =>
    cases n <;> simp [charsContain, List.isEmpty]
  | cons c cs ih =>
    simp [charsContain, charsStartWith_iff, ih, List.infix_cons_iff]

/-- `includes` respects substring transitivity: if the haystack contains
`b` and `b` contains `a`, the haystack contains `a`. -/
theorem containsSubstr_trans {hay b a : String}
    (h₁ : containsSubstr hay b = true) (h₂ : charsContain b.toList a.toList = true) :
    containsSubstr hay a = true := by
  rw [containsSubstr, charsContain_iff] at h₁ ⊢
  rw [charsContain_iff] at h₂
  exact h₂.trans h₁

/-- `s.endsWith(pat)`, character by character. -/
def strEndsWith (s pat : String) : Bool :=
  charsStartWith s.data.reverse pat.data.reverse

/-- Split a character list at every occurrence of the separator
character; the JavaScript `split` convention, so the empty input yields
`[""]` and adjacent separators yield empty fields. -/
def splitOnChar (sep : Char) : List Char → List String
  | [] => [""]
  | c :: cs =>
    let rest := splitOnChar sep cs
    if c = sep then "" :: rest
    else
      match rest with
      | r :: rs => (⟨c :: r.data⟩ : String) :: rs
      | [] => [⟨[c]⟩]

/-- `s.split(' ')`: split on the space character. -/
def jsSplitOnSpace (s : String) : List String :=
  splitOnChar ' ' s.data

/-- `parseInt(s, 10)`: skip leading whitespace, read an optional sign and
a non-empty run of decimal digits; `NaN` (no digits) is `none`. -/
def jsParseInt (s : String) : Option Int :=
  let cs := s.toList.dropWhile Char.isWhitespace
  let signAndRest : Bool × List Char :=
    match cs with
    | '-' :: rest => (true, rest)
    | '+' :: rest => (false, rest)
    | _ => (false, cs)
  let ds := signAndRest.2.takeWhile Char.isDigit
  if ds.isEmpty then none
  else
    let n : Nat := ds.foldl (fun acc c => acc * 10 + (c.toNat - '0'.toNat)) 0
    some (if signAndRest.1 then -(n : Int) else (n : Int))

/-- Is the given `Except` a success? -/
def exceptIsOk : Except String α → Bool
  | .ok _ => true
  | .error _ => false

/-! ## Scorer (`src/services/scoring.ts` — `calculateInitialScore`,
`recalculateScoreOnInteraction`) -/

/-- The fixed `statusScores` table of `calculateInitialScore`; an unknown
status contributes `0` (`statusScores[...] || 0`). -/
def statusScore (k : String) : Int :=
  if k = "Qualified Lead" then 25
  else if k = "Contact" then 10
  else if k = "Prospect" then 5
  else if k = "open" then 8
  else 0

/-- `v.toLowerCase()`: only strings have the method; calling it on any
other truthy value throws. -/
def jsToLowerE : JVal → Except String String
  | .jstr s => .ok (strToLower s)
  | _ => .error "TypeError: toLowerCase is not a function"

/-- `calculateInitialScore` before its final clamp: the additive rules for
status, title keywords, completeness and purchase time frame, the halved
carry-over of the upstream score, the 1.5x customer multiplier, the
competitor-domain penalty and the unsubscribed halving, in source order.
Integer `Math.floor` on halves/1.5x products is floor division. -/
def rawInitialScore (v : JVal) : Except String Int :=
  match v with
  | .jnull => .error "TypeError: cannot read properties of null"
  | .jundefined => .error "TypeError: cannot read properties of undefined"
  | _ => do
    let g := getFieldD v
    let s0 : Int := statusScore (jsToString (jsOr (g "leadStatus") (.jstr "")))
    let s1 ←
      (if jsTruthy (g "title") then do
        let tl ← jsToLowerE (g "title")
        let b1 : Int :=
          if containsSubstr tl "manager" || containsSubstr tl "director" ||
             containsSubstr tl "vp" || containsSubstr tl "owner" then 15 else 0
        let b2 : Int :=
          if containsSubstr tl "ceo" || containsSubstr tl "president" then 20 else 0
        pure (s0 + b1 + b2)
      else pure s0)
    let s2 := s1 + (if jsTruthy (g "emailAddress") then 5 else 0)
                 + (if jsTruthy (g "phoneNumber") then 5 else 0)
                 + (if jsTruthy (g "companyName") then 5 else 0)
    let s3 ←
      (if jsTruthy (g "time_frame_5eceb4e7d9474") then do
        let tl ← jsToLowerE (g "time_frame_5eceb4e7d9474")
        pure (s2 + (if containsSubstr tl "within 1 month" then 25
               else if containsSubstr tl "within 3 month" then 15
               else if containsSubstr tl "within 6 month" then 10
               else 0))
      else pure s2)
    let s4 :=
      if jsTruthy (g "leadScore") then
        match jsParseInt (jsToString (g "leadScore")) with
        | some n => s3 + Int.fdiv n 2
        | none => s3
      else s3
    let s5 := if jsStrictEqOne (g "isCustomer") then Int.fdiv (s4 * 3) 2 else s4
    let s6 ←
      (match g "emailAddress" with
       | .jnull => pure s5
       | .jundefined => pure s5
       | .jstr e => pure (if strEndsWith e "@competitor.com" then s5 - 10 else s5)
       | _ => Except.error "TypeError: endsWith is not a function")
    let s7 := if jsStrictEqOne (g "isUnsubscribed") then Int.fdiv s6 2 else s6
    pure s7

/-- `calculateInitialScore`: the raw accumulation followed by the final
`Math.max(0, score)` clamp. -/
def calculateInitialScore (v : JVal) : Except String Int :=
  (rawInitialScore v).map (fun s => max 0 s)

/-- The `switch (interactionType.toLowerCase())` table of
`recalculateScoreOnInteraction` (the `default` arm is `+1`). -/
def interactionTypeAdj (interactionType : String) : Int :=
  let t := strToLower interactionType
  if t = "call" then 10
  else if t = "meeting" then 15
  else if t = "demo" then 25
  else if t = "sms" then 5
  else if t = "email" then 5
  else if t = "note" then 2
  else 1

/-- The keyword-driven adjustment scanned from a (truthy) AI summary:
positive / interested / next-steps phrases `+10`, negative / not
interested / objections phrases `-5`, proposal / quote phrases `+15`,
independently additive. -/
def summaryKeywordAdj (summaryLower : String) : Int :=
  (if containsSubstr summaryLower "positive sentiment" ||
      containsSubstr summaryLower "interested" ||
      containsSubstr summaryLower "next steps scheduled" then 10 else 0)
  + (if containsSubstr summaryLower "negative sentiment" ||
       containsSubstr summaryLower "not interested" ||
       containsSubstr summaryLower "objections" then -5 else 0)
  + (if containsSubstr summaryLower "sent proposal" ||
       containsSubstr summaryLower "requested quote" then 15 else 0)

/-- `recalculateScoreOnInteraction`: type delta plus keyword deltas (the
summary scan runs only when `aiSummary` is truthy, i.e. present and
non-empty), summed with the current score and clamped at `0`. -/
def recalculateScoreOnInteraction (currentScore : Int) (interactionType : String)
    (aiSummary : Option String) : Int :=
  let scoreAdjustment := interactionTypeAdj interactionType +
    (match aiSummary with
     | some s => if s ≠ "" then summaryKeywordAdj (strToLower s) else 0
     | none => 0)
  max 0 (currentScore + scoreAdjustment)

/-! ## Data model (`src/types.ts`) -/

/-- The `leads` row fields a create/update write carries
(`LeadUpsertData = Omit<Lead, 'id' | 'updated_at' | 'created_at'>`). -/
structure LeadUpsertData where
  sharpspring_id : String
  name : Option String
  email : Option String
  phone : Option String
  score : Int
  tags : Option (List String)
  last_contacted : Option String
  company_name : Option String
  title : Option String
  website : Option String
  lead_status : Option String
  is_customer : Bool
  is_qualified : Bool
  ss_create_timestamp : Option String
  ss_update_timestamp : Option String
  lead_source : Option String
  initial_lead_source : Option String
  time_frame : Option String
  city : Option String
  state : Option String
  zipcode : Option String
  ss_lead_score : Option Int
  deriving Repr, DecidableEq

/-- A stored `leads` row (the `Lead` interface). -/
structure Lead where
  id : String
  sharpspring_id : Option String
  name : Option String
  email : Option String
  phone : Option String
  score : Int
  tags : Option (List String)
  last_contacted : Option String
  company_name : Option String
  title : Option String
  website : Option String
  lead_status : Option String
  is_customer : Option Bool
  is_qualified : Option Bool
  ss_create_timestamp : Option String
  ss_update_timestamp : Option String
  lead_source : Option String
  initial_lead_source : Option String
  time_frame : Option String
  city : Option String
  state : Option String
  zipcode : Option String
  ss_lead_score : Option Int
  updated_at : String
  created_at : String
  deriving Repr, DecidableEq

/-- A row appended to the `slack_alerts` audit table
(`SlackAlertCreateData`). -/
structure AlertRecord where
  lead_id : String
  slack_message_ts : String
  score_at_send : Int
  deriving Repr, DecidableEq

/-- A notification dispatched through the Slack service. -/
inductive Notification where
  | newLead (score : Int) : Notification
  | highScore (score : Int) : Notification
  deriving Repr, DecidableEq

/-! ## Payload mapper (`src/utils/lead-mapper.ts` — `mapSharpSpringToLead`,
duplicated verbatim inside `sync-leads.ts`) -/

/-- The field-by-field mapping of a (non-null) raw SharpSpring payload to
the canonical upsert fields. -/
def mapFields (v : JVal) : LeadUpsertData :=
  let g := getFieldD v
  let nameJoined :=
    String.intercalate " " (([g "firstName", g "lastName"].filter jsTruthy).map jsToString)
  { sharpspring_id := jsToString (g "id")
    name := if nameJoined = "" then none else some nameJoined
    email := jsOrNullStr (g "emailAddress")
    phone := jsOrNullStr (jsOr (g "mobilePhoneNumber") (jsOr (g "phoneNumber") (g "officePhoneNumber")))
    score := 0
    tags := none
    last_contacted := none
    company_name := jsOrNullStr (g "companyName")
    title := jsOrNullStr (g "title")
    website := jsOrNullStr (g "website")
    lead_status := jsOrNullStr (g "leadStatus")
    is_customer := jsStrictEqOne (g "isCustomer")
    is_qualified := jsStrictEqOne (g "isQualified")
    ss_create_timestamp := jsOrNullStr (g "createTimestamp")
    ss_update_timestamp := jsOrNullStr (g "updateTimestamp")
    lead_source := none
    initial_lead_source := jsOrNullStr (g "initial_lead_source_5ecff3dcb9ec7")
    time_frame := jsOrNullStr (g "time_frame_5eceb4e7d9474")
    city := jsOrNullStr (g "city")
    state := jsOrNullStr (g "state")
    zipcode := jsOrNullStr (g "zipcode")
    ss_lead_score :=
      if jsTruthy (g "leadScore") then jsParseInt (jsToString (g "leadScore")) else none }

/-- `mapSharpSpringToLead`: property reads on a `null`/`undefined` payload
throw, otherwise the mapping is total. -/
def mapSharpSpringToLead (v : JVal) : Except String LeadUpsertData :=
  match v with
  | .jnull => .error "TypeError: cannot read properties of null"
  | .jundefined => .error "TypeError: cannot read properties of undefined"
  | _ => .ok (mapFields v)

/-! ## Webhook payload normalizer
(`processWebhookLead`, `src/webhooks/sharpspring-webhook.ts` lines 78-129) -/

/-- The adoption test of the nested-payload scan: a candidate property
value is adopted when it is truthy, of object type, and has a truthy
`id`, `firstName` or `emailAddress` field. -/
def looksLikeLead (w : JVal) : Bool :=
  jsTruthy w && typeofIsObject w &&
    (jsTruthy (getFieldD w "id") || jsTruthy (getFieldD w "firstName") ||
     jsTruthy (getFieldD w "emailAddress"))

/-- The alternate-wrapper scan: when the working payload has neither a
truthy `id` nor a truthy `firstName` and is of object type, the
*original* payload's entries are scanned in order and the first entry
that looks like a lead replaces the working payload.  (The working
payload is never `null` at this point: it was produced by
`ssLead.lead || ssLead` on a non-null `ssLead`.) -/
def nestedScan (orig lf : JVal) : JVal :=
  if !(jsTruthy (getFieldD lf "id")) && !(jsTruthy (getFieldD lf "firstName")) &&
     typeofIsObject lf then
    match orig with
    | .jobj fs =>
      match fs.find? (fun p => looksLikeLead p.2) with
      | some p => p.2
      | none => lf
    | _ => lf
  else lf

/-- The name-only fallback: when the working payload is an object with
exactly one field and a truthy `name`, or is a bare string, a minimal
lead structure is synthesized from the name string, split on the space
character (`split(' ')`): first token to `firstName`, the remaining
tokens re-joined to `lastName`, `emailAddress`/`phoneNumber` null, and a
fresh identifier `webhook-<epoch-millis>`.  Calling `.split` on a truthy
non-string name value throws. -/
def nameOnlyResolve (lf : JVal) (nowMs : Nat) : Except String JVal :=
  let oneFieldName : Bool :=
    match lf with
    | .jobj fs => fs.length = 1 && jsTruthy (getFieldD lf "name")
    | _ => false
  let isBareString : Bool := match lf with | .jstr _ => true | _ => false
  if oneFieldName || isBareString then
    match (match lf with | .jstr _ => lf | _ => getFieldD lf "name") with
    | .jstr ns =>
      let nameParts := jsSplitOnSpace ns
      .ok (.jobj
        [("id", .jstr ("webhook-" ++ toString nowMs)),
         ("firstName", .jstr (jsOrStr (nameParts.headD "") "")),
         ("lastName", .jstr (jsOrStr (String.intercalate " " (nameParts.drop 1)) "")),
         ("emailAddress", .jnull),
         ("phoneNumber", .jnull)])
    | _ => .error "TypeError: split is not a function"
  else .ok lf

/-- The whole normalization prefix of `processWebhookLead`: unwrap an
optional `lead` wrapper (`ssLead.lead || ssLead`, which throws on a
`null`/`undefined` payload), run the nested scan and the name-only
fallback, then resolve the external identifier
`String(leadForProcessing.id || webhook-<epoch-millis>)`.  Returns the
working payload and the resolved identifier string. -/
def normalizeWebhook (ssLead : JVal) (nowMs : Nat) : Except String (JVal × String) :=
  match getField ssLead "lead" with
  | .error e => .error e
  | .ok lv =>
    let lf1 := nestedScan ssLead (jsOr lv ssLead)
    match nameOnlyResolve lf1 nowMs with
    | .error e => .error e
    | .ok lf =>
      let idv := getFieldD lf "id"
      .ok (lf, if jsTruthy idv then jsToString idv else "webhook-" ++ toString nowMs)

/-! ## Create / update payload construction -/

/-- The row written on an update: the mapped fields plus an explicit
`updated_at` timestamp. -/
structure UpdatePayload extends LeadUpsertData where
  updated_at : String
  deriving Repr, DecidableEq

/-- The row written on a create: the mapped fields plus fresh
`created_at` / `updated_at` timestamps. -/
structure CreatePayload extends LeadUpsertData where
  created_at : String
  updated_at : String
  deriving Repr, DecidableEq

/-- JavaScript `a ?? b` on nullable columns: the incoming value is taken
only when it is non-null/non-undefined. -/
def jsCoalesce (a b : Option α) : Option α :=
  match a with
  | some x => some x
  | none => b

/-- The update payload built by `syncLeads` (`sync-leads.ts` lines
120-132): spread of the freshly mapped fields, with `sharpspring_id`
pinned to the resolved id string, the five protected fields (`name`,
`email`, `phone`, `tags`, `last_contacted`) merged non-destructively via
`??`, the score overwritten with the freshly computed one, and
`updated_at` set to now. -/
def mkSyncUpdatePayload (leadData : LeadUpsertData) (ssId : String) (existing : Lead)
    (score : Int) (nowIso : String) : UpdatePayload :=
  { toLeadUpsertData :=
      { leadData with
        sharpspring_id := ssId
        name := jsCoalesce leadData.name existing.name
        email := jsCoalesce leadData.email existing.email
        phone := jsCoalesce leadData.phone existing.phone
        tags := jsCoalesce leadData.tags existing.tags
        last_contacted := jsCoalesce leadData.last_contacted existing.last_contacted
        score := score }
    updated_at := nowIso }

/-- The update payload built by `processWebhookLead`
(`sharpspring-webhook.ts` lines 176-186); textually the same construction
as the bulk-sync one. -/
def mkWebhookUpdatePayload (leadData : LeadUpsertData) (ssId : String) (existing : Lead)
    (score : Int) (nowIso : String) : UpdatePayload :=
  { toLeadUpsertData :=
      { leadData with
        sharpspring_id := ssId
        name := jsCoalesce leadData.name existing.name
        email := jsCoalesce leadData.email existing.email
        phone := jsCoalesce leadData.phone existing.phone
        tags := jsCoalesce leadData.tags existing.tags
        last_contacted := jsCoalesce leadData.last_contacted existing.last_contacted
        score := score }
    updated_at := nowIso }

/-- The create payload used by both entry points: spread of the mapped
fields with the resolved id string and fresh timestamps. -/
def mkCreatePayload (leadData : LeadUpsertData) (ssId : String) (nowIso : String) :
    CreatePayload :=
  { toLeadUpsertData := { leadData with sharpspring_id := ssId }
    created_at := nowIso
    updated_at := nowIso }

/-! ## Orchestrators

The Supabase lead store and the Slack notifier are external
collaborators; a pipeline run is modelled as a pure function of the
payload, the clock, and an oracle carrying the collaborator responses
that run observes (lookup outcome, write outcome, notifier delivery
token, and whether the Slack webhook URL env var is configured). -/

/-- Is the value `null` or `undefined`? -/
def isNullish : JVal → Bool
  | .jnull => true
  | .jundefined => true
  | _ => false

/-- JavaScript truthiness of a `string | null` value: `null` and `""`
are falsy. -/
def optTruthy : Option String → Bool
  | some s => s ≠ ""
  | none => false

/-- The bulk-sync alert-log step (`if (messageTs) { insert ... }`): an
alert row is appended only when the notifier returned a truthy delivery
token. -/
def tokenAlerts (tok : Option String) (leadId : String) (score : Int) : List AlertRecord :=
  match tok with
  | some s => if s ≠ "" then [{ lead_id := leadId, slack_message_ts := s, score_at_send := score }] else []
  | none => []

/-- The webhook alert-log step
(`if (messageTs || process.env.SLACK_WEBHOOK_URL) { insert ... }`): an
alert row is appended when the token is truthy or the Slack webhook URL
is configured, recording the given placeholder when the token is
missing. -/
def webhookAlerts (tok : Option String) (urlConfigured : Bool) (leadId : String)
    (placeholder : String) (score : Int) : List AlertRecord :=
  if optTruthy tok || urlConfigured then
    [{ lead_id := leadId
       slack_message_ts := match tok with | some s => jsOrStr s placeholder | none => placeholder
       score_at_send := score }]
  else []

/-- The store and notifier responses one bulk-sync iteration observes. -/
structure SyncOracle where
  findResult : Except String (Option Lead)
  writeResult : Except String (Option Lead)
  newLeadToken : Option String
  highScoreToken : Option String

/-- The observable outcome of one bulk-sync iteration: counter deltas,
the notifications dispatched, the alert rows appended, and the row
submitted to the store. -/
structure SyncItemResult where
  errored : Bool
  processed : Bool
  countedNew : Bool
  countedUpdated : Bool
  alertedDelta : Nat
  notifications : List Notification
  alerts : List AlertRecord
  updateWritten : Option UpdatePayload
  createWritten : Option CreatePayload
  deriving Repr, DecidableEq

/-- The outcome of an iteration that only increments the error counter
(`errorCount++; continue` or the per-lead `catch`). -/
def syncErrorSkip : SyncItemResult :=
  { errored := true, processed := false, countedNew := false, countedUpdated := false
    alertedDelta := 0, notifications := [], alerts := []
    updateWritten := none, createWritten := none }

/-- The shared threshold block of `syncLeads` (lines 205-227):
`crossedThreshold = savedLead && score >= THRESHOLD && originalScore <
THRESHOLD`; on a crossing the alerted counter is bumped, the high-score
alert is sent, and an alert row is appended only if a truthy token came
back. -/
def syncThresholdStep (threshold score origScore : Int) (savedLead : Option Lead)
    (highTok : Option String) : Nat × List Notification × List AlertRecord :=
  match savedLead with
  | some saved =>
    if decide (threshold ≤ score) && decide (origScore < threshold) then
      (1, [.highScore score], tokenAlerts highTok saved.id score)
    else (0, [], [])
  | none => (0, [], [])

/-- One iteration of the `syncLeads` loop (`sync-leads.ts` lines 80-234):
skip (counting an error) on a missing id; map and score the payload; look
up by external id; update (non-destructive merge) or create; on create
always send the new-lead notification when the insert returned a row; run
the threshold block (with `originalScore = 0` for a new lead); any store
error or thrown mapper/scorer error increments the error counter and
moves on. -/
def syncProcessOne (threshold : Int) (nowIso : String) (ssLead : JVal) (o : SyncOracle) :
    SyncItemResult :=
  if !(jsTruthy ssLead) || isNullish (getFieldD ssLead "id") then
    syncErrorSkip
  else
    let ssId := jsToString (getFieldD ssLead "id")
    match mapSharpSpringToLead ssLead with
    | .error _ => syncErrorSkip
    | .ok ld0 =>
      match calculateInitialScore ssLead with
      | .error _ => syncErrorSkip
      | .ok score =>
        let leadData := { ld0 with score := score }
        match o.findResult with
        | .error _ => syncErrorSkip
        | .ok (some existing) =>
          let up := mkSyncUpdatePayload leadData ssId existing score nowIso
          match o.writeResult with
          | .error _ => { syncErrorSkip with countedUpdated := true, updateWritten := some up }
          | .ok savedLead =>
            let step := syncThresholdStep threshold score existing.score savedLead o.highScoreToken
            { errored := false, processed := true, countedNew := false, countedUpdated := true
              alertedDelta := step.1, notifications := step.2.1, alerts := step.2.2
              updateWritten := some up, createWritten := none }
        | .ok none =>
          let cp := mkCreatePayload leadData ssId nowIso
          match o.writeResult with
          | .error _ => { syncErrorSkip with countedNew := true, createWritten := some cp }
          | .ok savedLead =>
            match savedLead with
            | some saved =>
              let newAlerts := tokenAlerts o.newLeadToken saved.id score
              let newAlerted : Nat := if optTruthy o.newLeadToken then 1 else 0
              let step := syncThresholdStep threshold score 0 (some saved) o.highScoreToken
              { errored := false, processed := true, countedNew := true, countedUpdated := false
                alertedDelta := newAlerted + step.1
                notifications := Notification.newLead score :: step.2.1
                alerts := newAlerts ++ step.2.2
                updateWritten := none, createWritten := some cp }
            | none =>
              { errored := false, processed := true, countedNew := true, countedUpdated := false
                alertedDelta := 0, notifications := [], alerts := []
                updateWritten := none, createWritten := some cp }

/-- The aggregate counters and side effects of a bulk-sync run. -/
structure SyncSummary where
  processedCount : Nat
  errorCount : Nat
  newLeadsCount : Nat
  updatedLeadsCount : Nat
  alertedLeadsCount : Nat
  notifications : List Notification
  alerts : List AlertRecord
  deriving Repr, DecidableEq

/-- The empty summary the run starts from. -/
def emptySummary : SyncSummary :=
  { processedCount := 0, errorCount := 0, newLeadsCount := 0, updatedLeadsCount := 0
    alertedLeadsCount := 0, notifications := [], alerts := [] }

/-- Accumulate one iteration's outcome into the running summary. -/
def addItem (acc : SyncSummary) (r : SyncItemResult) : SyncSummary :=
  { processedCount := acc.processedCount + (if r.processed then 1 else 0)
    errorCount := acc.errorCount + (if r.errored then 1 else 0)
    newLeadsCount := acc.newLeadsCount + (if r.countedNew then 1 else 0)
    updatedLeadsCount := acc.updatedLeadsCount + (if r.countedUpdated then 1 else 0)
    alertedLeadsCount := acc.alertedLeadsCount + r.alertedDelta
    notifications := acc.notifications ++ r.notifications
    alerts := acc.alerts ++ r.alerts }

/-- The `syncLeads` batch loop: each fetched payload is processed with
the store/notifier responses it observes, sequentially, accumulating the
summary counters. -/
def syncRun (threshold : Int) (nowIso : String) (items : List (JVal × SyncOracle)) :
    SyncSummary :=
  items.foldl (fun acc it => addItem acc (syncProcessOne threshold nowIso it.1 it.2)) emptySummary

/-- The store and notifier responses one webhook processing run
observes. -/
structure WebhookOracle where
  findResult : Except String (Option Lead)
  writeResult : Except String (Option Lead)
  slackToken : Option String
  slackUrlConfigured : Bool

/-- The observable outcome of one webhook processing run. -/
structure WebhookResult where
  completed : Bool
  isNewLead : Bool
  notifications : List Notification
  alerts : List AlertRecord
  updateWritten : Option UpdatePayload
  createWritten : Option CreatePayload
  deriving Repr, DecidableEq

/-- The outcome of a run that stopped before any notification was sent
(normalization throw, lookup error, mapper/scorer throw, write throw, or
a write that returned no row). -/
def webhookAborted : WebhookResult :=
  { completed := false, isNewLead := false, notifications := [], alerts := []
    updateWritten := none, createWritten := none }

/-- `processWebhookLead` (`sharpspring-webhook.ts` lines 78-245):
normalize the payload (which throws on `null`), look up by the resolved
external id, map and score, then either update — in which case a
high-score alert is *always* sent for the updated lead, with the alert
row appended when a token came back or the Slack webhook URL is
configured (placeholder `webhook_update_alert`) — or create, in which
case only the new-lead notification is sent (placeholder
`webhook_notification` for its log row).  Errors are swallowed by the
surrounding try/catch; the trailing AI follow-up messaging does not
touch the lead row, the notifications or the alert log and is outside
this model. -/
def processWebhookLead (nowMs : Nat) (nowIso : String) (ssLead : JVal) (o : WebhookOracle) :
    WebhookResult :=
  match normalizeWebhook ssLead nowMs with
  | .error _ => webhookAborted
  | .ok (lf, ssId) =>
    match o.findResult with
    | .error _ => webhookAborted
    | .ok exOpt =>
      match mapSharpSpringToLead lf with
      | .error _ => webhookAborted
      | .ok ld0 =>
        match calculateInitialScore lf with
        | .error _ => webhookAborted
        | .ok score =>
          let leadData := { ld0 with score := score }
          match exOpt with
          | some existing =>
            let up := mkWebhookUpdatePayload leadData ssId existing score nowIso
            match o.writeResult with
            | .error _ => { webhookAborted with updateWritten := some up }
            | .ok savedLead =>
              match savedLead with
              | some saved =>
                { completed := true, isNewLead := false
                  notifications := [.highScore score]
                  alerts := webhookAlerts o.slackToken o.slackUrlConfigured saved.id
                    "webhook_update_alert" score
                  updateWritten := some up, createWritten := none }
              | none =>
                { webhookAborted with updateWritten := some up }
          | none =>
            let cp := mkCreatePayload leadData ssId nowIso
            match o.writeResult with
            | .error _ => { webhookAborted with createWritten := some cp }
            | .ok savedLead =>
              match savedLead with
              | some saved =>
                { completed := true, isNewLead := true
                  notifications := [.newLead score]
                  alerts := webhookAlerts o.slackToken o.slackUrlConfigured saved.id
                    "webhook_notification" score
                  updateWritten := none, createWritten := some cp }
              | none =>
                { webhookAborted with isNewLead := true, createWritten := some cp }

/-! ## Concrete fixtures -/

/-- A stored lead row with the given internal id and score. -/
def storedLead (idStr : String) (sc : Int) : Lead :=
  { id := idStr, sharpspring_id := some "42", name := some "Stored Name"
    email := some "a@x.com", phone := some "555-0000", score := sc
    tags := some ["vip"], last_contacted := some "2025-01-01"
    company_name := some "OldCo", title := none, website := none
    lead_status := some "Contact", is_customer := some false, is_qualified := none
    ss_create_timestamp := none, ss_update_timestamp := none, lead_source := none
    initial_lead_source := none, time_frame := none, city := none, state := none
    zipcode := none, ss_lead_score := none, updated_at := "u0", created_at := "c0" }

/-- The end-to-end scenario payload of the spec: qualified status, VP
title, email and phone present, no company, one-month time frame, no
upstream score, no customer/unsubscribed flags. -/
def c4Payload : JVal := .jobj
  [("leadStatus", .jstr "Qualified Lead"), ("title", .jstr "VP of Sales"),
   ("emailAddress", .jstr "vp@example.com"), ("phoneNumber", .jstr "555-0100"),
   ("time_frame_5eceb4e7d9474", .jstr "within 1 month")]

/-- A payload with a competitor email domain and the unsubscribed flag
set, and no bonus-carrying fields other than the email itself. -/
def c5Payload : JVal := .jobj
  [("emailAddress", .jstr "x@competitor.com"), ("isUnsubscribed", .jstr "1")]

/-- A plain update payload: an external id and one email field
(initial score 5, well below any realistic threshold). -/
def pUpd : JVal := .jobj [("id", .jstr "42"), ("emailAddress", .jstr "b@x.com")]

/-- A payload scoring 100: 25 (status) + 15 (owner) + 20 (ceo) + 5 + 5 +
5 (email, phone, company) + 25 (one-month time frame). -/
def pHigh : JVal := .jobj
  [("id", .jstr "h1"), ("leadStatus", .jstr "Qualified Lead"),
   ("title", .jstr "CEO and Owner"), ("emailAddress", .jstr "c@x.com"),
   ("phoneNumber", .jstr "555-0101"), ("companyName", .jstr "Acme"),
   ("time_frame_5eceb4e7d9474", .jstr "within 1 month")]

/-- The name-only webhook payload from the spec's test list. -/
def karliPayload : JVal := .jobj [("lead", .jobj [("name", .jstr "Karli")])]

/-- The minimal lead structure the name-only fallback synthesizes from a
display-name string: first space-separated token as first name, the
remaining tokens re-joined as last name, null contact fields, and a
time-based identifier. -/
def synthNameLead (s : String) (nowMs : Nat) : JVal :=
  .jobj [("id", .jstr ("webhook-" ++ toString nowMs)),
         ("firstName", .jstr ((jsSplitOnSpace s).headD "")),
         ("lastName", .jstr (String.intercalate " " ((jsSplitOnSpace s).drop 1))),
         ("emailAddress", .jnull), ("phoneNumber", .jnull)]

/-- Mapped fields of an update payload that omits the email. -/
def mergeProbeOmit : LeadUpsertData := mapFields (.jobj [("id", .jstr "42")])

/-- Mapped fields of an update payload that carries a new email. -/
def mergeProbeNew : LeadUpsertData :=
  mapFields (.jobj [("id", .jstr "42"), ("emailAddress", .jstr "b@x.com")])

/-- Sync oracle: the lookup finds a stored lead with score 90, the write
succeeds, and the notifier returns tokens. -/
def oSyncUpd90 : SyncOracle :=
  { findResult := .ok (some (storedLead "L1" 90)), writeResult := .ok (some (storedLead "L1" 5))
    newLeadToken := some "ts-new", highScoreToken := some "ts-high" }

/-- Sync oracle: no stored lead, insert succeeds, tokens returned. -/
def oSyncCreate : SyncOracle :=
  { findResult := .ok none, writeResult := .ok (some (storedLead "L2" 100))
    newLeadToken := some "ts-new", highScoreToken := some "ts-high" }

/-- Sync oracle: no stored lead, insert succeeds, the notifier returned
no delivery token at all. -/
def oSyncCreateNoTok : SyncOracle :=
  { findResult := .ok none, writeResult := .ok (some (storedLead "L2" 5))
    newLeadToken := none, highScoreToken := none }

/-- Webhook oracle: the lookup finds a stored lead with score 90 (already
at or above the default threshold 85), the update succeeds, a token comes
back. -/
def oWebUpd90 : WebhookOracle :=
  { findResult := .ok (some (storedLead "L1" 90)), writeResult := .ok (some (storedLead "L1" 5))
    slackToken := some "ts-web", slackUrlConfigured := true }

/-- Webhook oracle: no stored lead, insert succeeds, a token comes back. -/
def oWebCreate : WebhookOracle :=
  { findResult := .ok none, writeResult := .ok (some (storedLead "L2" 100))
    slackToken := some "ts-web", slackUrlConfigured := true }

/-- Webhook oracle: update path with no token but with the Slack webhook
URL configured. -/
def oWebUpdNoTok : WebhookOracle :=
  { findResult := .ok (some (storedLead "L1" 10)), writeResult := .ok (some (storedLead "L1" 5))
    slackToken := none, slackUrlConfigured := true }

/-- Webhook oracle: update path with no token and no configured URL. -/
def oWebUpdNothing : WebhookOracle :=
  { findResult := .ok (some (storedLead "L1" 10)), writeResult := .ok (some (storedLead "L1" 5))
    slackToken := none, slackUrlConfigured := false }

/-! ## Claims -/

/-- C4 (counterexample): on the spec's end-to-end payload — status
"Qualified Lead" (+25), title "VP of Sales" (+15), email and phone
present (+5 each), one-month time frame (+25) — `calculateInitialScore`
returns 75, not the 70 the claim states (the claim's own itemization
sums to 75). -/
theorem claim_C4_counterexample :
    calculateInitialScore c4Payload = Except.ok 75 ∧ (75 : Int) ≠ 70 :=
  ⟨by rfl, by decide⟩

/-- C4 (amended): for the payload with leadStatus "Qualified Lead",
title "VP of Sales", non-null emailAddress and phoneNumber, no
companyName, time frame "within 1 month", no upstream lead score,
non-competitor email domain, and customer and unsubscribed flags not
set, the initial-score function returns 75
(25 + 15 + 5 + 5 + 25). -/
theorem claim_C4 : calculateInitialScore c4Payload = Except.ok 75 := by
  rfl

/-- C5: every score the initial-score function computes is ≥ 0; the
incremental re-score function is ≥ 0 for every non-negative current
score, interaction type and optional summary; and the competitor-domain
plus unsubscribed payload with no other bonuses scores exactly 0. -/
theorem claim_C5 :
    (∀ (v : JVal) (n : Int), calculateInitialScore v = Except.ok n → 0 ≤ n) ∧
    (∀ (c : Int) (t : String) (s : Option String),
      0 ≤ c → 0 ≤ recalculateScoreOnInteraction c t s) ∧
    calculateInitialScore c5Payload = Except.ok 0 := by
  refine ⟨?_, ?_, by rfl⟩
  · intro v n h
    unfold calculateInitialScore at h
    cases hr : rawInitialScore v with
    | error e => rw [hr] at h; simp [Except.map] at h
    | ok s =>
      rw [hr] at h
      simp only [Except.map, Except.ok.injEq] at h
      omega
  · intro c t s _
    unfold recalculateScoreOnInteraction
    exact le_max_left 0 _

/-- C5 (witness): the universally quantified parts of C5 instantiated at
the end-to-end payload (score 75) and at a concrete re-score call. -/
theorem claim_C5_witness :
    (0 : Int) ≤ 75 ∧ 0 ≤ recalculateScoreOnInteraction 3 "call" none :=
  ⟨claim_C5.1 c4Payload 75 (by rfl), claim_C5.2.1 3 "call" none (by decide)⟩

/-- C10: a summary whose lowercase form contains "not interested" (and no
proposal/quote phrase) triggers both the +10 positive-keyword branch
(because "not interested" contains the substring "interested") and the
-5 negative-keyword branch, so the net keyword contribution is +5 on top
of the interaction-type delta. -/
theorem claim_C10 (c : Int) (t : String) (s : String)
    (h1 : containsSubstr (strToLower s) "not interested" = true)
    (h2 : containsSubstr (strToLower s) "sent proposal" = false)
    (h3 : containsSubstr (strToLower s) "requested quote" = false) :
    recalculateScoreOnInteraction c t (some s) = max 0 (c + interactionTypeAdj t + 5) := by
  have hne : s ≠ "" := by
    intro he
    subst he
    exact absurd h1 (by decide)
  have hint : containsSubstr (strToLower s) "interested" = true :=
    containsSubstr_trans h1 (by decide)
  unfold recalculateScoreOnInteraction summaryKeywordAdj
  simp only [hne, h1, h2, h3, hint, Bool.or_true, Bool.true_or, Bool.or_false,
    Bool.false_or, ne_eq, not_false_eq_true, if_true, if_false, ite_true, ite_false,
    Bool.false_eq_true]
  congr 1
  ring

/-- C10 (witness): a concrete "not interested" summary on a call with
current score 50 yields the type delta +10 plus the net +5. -/
theorem claim_C10_witness :
    recalculateScoreOnInteraction 50 "Call" (some "Customer is NOT interested") =
      max 0 (50 + interactionTypeAdj "Call" + 5) :=
  claim_C10 50 "Call" "Customer is NOT interested" (by decide) (by decide) (by decide)

/-- C3: on every update of an existing lead, both update-payload
constructions (bulk-sync and webhook) are non-destructive on the
protected fields name, email, phone, tags and last-contacted — the
incoming value is taken exactly when it is non-null, otherwise the
stored value is retained — while every other canonical field (including
the score and the pinned external id) is overwritten unconditionally
with the newly normalized value, a null incoming value included. -/
theorem claim_C3 (ld : LeadUpsertData) (ex : Lead) (ssId : String) (score : Int)
    (nowIso : String) :
    (((ld.name = none →
        (mkSyncUpdatePayload ld ssId ex score nowIso).name = ex.name ∧
        (mkWebhookUpdatePayload ld ssId ex score nowIso).name = ex.name) ∧
      (∀ v, ld.name = some v →
        (mkSyncUpdatePayload ld ssId ex score nowIso).name = some v ∧
        (mkWebhookUpdatePayload ld ssId ex score nowIso).name = some v)) ∧
     ((ld.email = none →
        (mkSyncUpdatePayload ld ssId ex score nowIso).email = ex.email ∧
        (mkWebhookUpdatePayload ld ssId ex score nowIso).email = ex.email) ∧
      (∀ v, ld.email = some v →
        (mkSyncUpdatePayload ld ssId ex score nowIso).email = some v ∧
        (mkWebhookUpdatePayload ld ssId ex score nowIso).email = some v)) ∧
     ((ld.phone = none →
        (mkSyncUpdatePayload ld ssId ex score nowIso).phone = ex.phone ∧
        (mkWebhookUpdatePayload ld ssId ex score nowIso).phone = ex.phone) ∧
      (∀ v, ld.phone = some v →
        (mkSyncUpdatePayload ld ssId ex score nowIso).phone = some v ∧
        (mkWebhookUpdatePayload ld ssId ex score nowIso).phone = some v)) ∧
     ((ld.tags = none →
        (mkSyncUpdatePayload ld ssId ex score nowIso).tags = ex.tags ∧
        (mkWebhookUpdatePayload ld ssId ex score nowIso).tags = ex.tags) ∧
      (∀ v, ld.tags = some v →
        (mkSyncUpdatePayload ld ssId ex score nowIso).tags = some v ∧
        (mkWebhookUpdatePayload ld ssId ex score nowIso).tags = some v)) ∧
     ((ld.last_contacted = none →
        (mkSyncUpdatePayload ld ssId ex score nowIso).last_contacted = ex.last_contacted ∧
        (mkWebhookUpdatePayload ld ssId ex score nowIso).last_contacted = ex.last_contacted) ∧
      (∀ v, ld.last_contacted = some v →
        (mkSyncUpdatePayload ld ssId ex score nowIso).last_contacted = some v ∧
        (mkWebhookUpdatePayload ld ssId ex score nowIso).last_contacted = some v))) ∧
    ((mkSyncUpdatePayload ld ssId ex score nowIso).company_name = ld.company_name ∧
     (mkWebhookUpdatePayload ld ssId ex score nowIso).company_name = ld.company_name ∧
     (mkSyncUpdatePayload ld ssId ex score nowIso).title = ld.title ∧
     (mkWebhookUpdatePayload ld ssId ex score nowIso).title = ld.title ∧
     (mkSyncUpdatePayload ld ssId ex score nowIso).website = ld.website ∧
     (mkWebhookUpdatePayload ld ssId ex score nowIso).website = ld.website ∧
     (mkSyncUpdatePayload ld ssId ex score nowIso).lead_status = ld.lead_status ∧
     (mkWebhookUpdatePayload ld ssId ex score nowIso).lead_status = ld.lead_status ∧
     (mkSyncUpdatePayload ld ssId ex score nowIso).is_customer = ld.is_customer ∧
     (mkWebhookUpdatePayload ld ssId ex score nowIso).is_customer = ld.is_customer ∧
     (mkSyncUpdatePayload ld ssId ex score nowIso).is_qualified = ld.is_qualified ∧
     (mkWebhookUpdatePayload ld ssId ex score nowIso).is_qualified = ld.is_qualified ∧
     (mkSyncUpdatePayload ld ssId ex score nowIso).ss_create_timestamp = ld.ss_create_timestamp ∧
     (mkWebhookUpdatePayload ld ssId ex score nowIso).ss_create_timestamp = ld.ss_create_timestamp ∧
     (mkSyncUpdatePayload ld ssId ex score nowIso).ss_update_timestamp = ld.ss_update_timestamp ∧
     (mkWebhookUpdatePayload ld ssId ex score nowIso).ss_update_timestamp = ld.ss_update_timestamp ∧
     (mkSyncUpdatePayload ld ssId ex score nowIso).lead_source = ld.lead_source ∧
     (mkWebhookUpdatePayload ld ssId ex score nowIso).lead_source = ld.lead_source ∧
     (mkSyncUpdatePayload ld ssId ex score nowIso).initial_lead_source = ld.initial_lead_source ∧
     (mkWebhookUpdatePayload ld ssId ex score nowIso).initial_lead_source = ld.initial_lead_source ∧
     (mkSyncUpdatePayload ld ssId ex score nowIso).time_frame = ld.time_frame ∧
     (mkWebhookUpdatePayload ld ssId ex score nowIso).time_frame = ld.time_frame ∧
     (mkSyncUpdatePayload ld ssId ex score nowIso).city = ld.city ∧
     (mkWebhookUpdatePayload ld ssId ex score nowIso).city = ld.city ∧
     (mkSyncUpdatePayload ld ssId ex score nowIso).state = ld.state ∧
     (mkWebhookUpdatePayload ld ssId ex score nowIso).state = ld.state ∧
     (mkSyncUpdatePayload ld ssId ex score nowIso).zipcode = ld.zipcode ∧
     (mkWebhookUpdatePayload ld ssId ex score nowIso).zipcode = ld.zipcode ∧
     (mkSyncUpdatePayload ld ssId ex score nowIso).ss_lead_score = ld.ss_lead_score ∧
     (mkWebhookUpdatePayload ld ssId ex score nowIso).ss_lead_score = ld.ss_lead_score ∧
     (mkSyncUpdatePayload ld ssId ex score nowIso).score = score ∧
     (mkWebhookUpdatePayload ld ssId ex score nowIso).score = score ∧
     (mkSyncUpdatePayload ld ssId ex score nowIso).sharpspring_id = ssId ∧
     (mkWebhookUpdatePayload ld ssId ex score nowIso).sharpspring_id = ssId) := by
  constructor
  · refine ⟨⟨fun h => ?_, fun v h => ?_⟩, ⟨fun h => ?_, fun v h => ?_⟩,
      ⟨fun h => ?_, fun v h => ?_⟩, ⟨fun h => ?_, fun v h => ?_⟩,
      ⟨fun h => ?_, fun v h => ?_⟩⟩ <;>
      simp [mkSyncUpdatePayload, mkWebhookUpdatePayload, jsCoalesce, h]
  · exact ⟨rfl, rfl, rfl, rfl, rfl, rfl, rfl, rfl, rfl, rfl, rfl, rfl, rfl, rfl, rfl, rfl,
      rfl, rfl, rfl, rfl, rfl, rfl, rfl, rfl, rfl, rfl, rfl, rfl, rfl, rfl, rfl, rfl, rfl, rfl⟩

/-- C3 (witness): the spec's own merge example — a stored lead with email
`a@x.com` keeps it when the update payload omits the email, and takes
`b@x.com` when the payload carries it. -/
theorem claim_C3_witness :
    (mkSyncUpdatePayload mergeProbeOmit "42" (storedLead "L1" 10) 5 "t").email =
      some "a@x.com" ∧
    (mkSyncUpdatePayload mergeProbeNew "42" (storedLead "L1" 10) 5 "t").email =
      some "b@x.com" := by
  constructor
  · exact ((claim_C3 mergeProbeOmit (storedLead "L1" 10) "42" 5 "t").1.2.1.1 (by rfl)).1
  · exact ((claim_C3 mergeProbeNew (storedLead "L1" 10) "42" 5 "t").1.2.1.2 "b@x.com" (by rfl)).1

/-- C6 (counterexample): on a `null` payload the normalization step does
not complete — the very first property read (`ssLead.lead || ssLead`)
throws a TypeError. -/
theorem claim_C6_counterexample :
    exceptIsOk (normalizeWebhook JVal.jnull 0) = false := by
  rfl

/-- C6 (amended): a `null` (or `undefined`) payload makes the webhook
normalization throw a TypeError before any field is derived (in
deployment the HTTP handler's payload validation rejects such bodies
before this point), while an empty-object payload is normalized without
throwing into a minimal record carrying only the synthesized identifier
`webhook-<epoch-millis>`, every underivable field being absent/null. -/
theorem claim_C6 (nowMs : Nat) :
    (∃ e, normalizeWebhook JVal.jnull nowMs = Except.error e) ∧
    (∃ e, normalizeWebhook JVal.jundefined nowMs = Except.error e) ∧
    normalizeWebhook (JVal.jobj []) nowMs =
      Except.ok (JVal.jobj [], "webhook-" ++ toString nowMs) :=
  ⟨⟨_, rfl⟩, ⟨_, rfl⟩, rfl⟩

/-- `a || ''` is the identity on strings. -/
theorem jsOrStr_empty (a : String) : jsOrStr a "" = a := by
  unfold jsOrStr
  split <;> simp_all

/-- A synthesized `webhook-` identifier is never the empty string. -/
theorem webhookIdStr_ne_empty (t : String) : "webhook-" ++ t ≠ "" := by
  intro h
  have h2 := congrArg String.data h
  rw [show ("webhook-" ++ t).data = "webhook-".data ++ t.data from rfl] at h2
  simp at h2

/-- C9: a working payload that is a single-field object holding a truthy
display name, or a bare string, is synthesized into a minimal record:
the name string is split on spaces, the first token becomes the first
name and the remaining tokens re-joined become the last name, the
contact fields are null, and the identifier is `webhook-<epoch-millis>`;
in particular `{ lead: { name: "Karli" } }` yields first name `"Karli"`,
empty last name and that synthesized identifier. -/
theorem claim_C9 :
    (∀ (s : String) (nowMs : Nat), s ≠ "" →
      normalizeWebhook (JVal.jobj [("name", JVal.jstr s)]) nowMs =
        Except.ok (synthNameLead s nowMs, "webhook-" ++ toString nowMs)) ∧
    (∀ (s : String) (nowMs : Nat),
      normalizeWebhook (JVal.jstr s) nowMs =
        Except.ok (synthNameLead s nowMs, "webhook-" ++ toString nowMs)) ∧
    (∀ nowMs : Nat,
      normalizeWebhook karliPayload nowMs =
        Except.ok (synthNameLead "Karli" nowMs, "webhook-" ++ toString nowMs) ∧
      getFieldD (synthNameLead "Karli" nowMs) "firstName" = JVal.jstr "Karli" ∧
      getFieldD (synthNameLead "Karli" nowMs) "lastName" = JVal.jstr "" ∧
      getFieldD (synthNameLead "Karli" nowMs) "emailAddress" = JVal.jnull ∧
      getFieldD (synthNameLead "Karli" nowMs) "phoneNumber" = JVal.jnull) := by
  refine ⟨?_, ?_, ?_⟩
  · intro s nowMs hs
    simp [normalizeWebhook, getField, getFieldD, jsOr, jsTruthy, nestedScan, typeofIsObject,
      looksLikeLead, nameOnlyResolve, jsToString, synthNameLead, jsOrStr_empty, hs,
      webhookIdStr_ne_empty, List.find?]
  · intro s nowMs
    simp [normalizeWebhook, getField, getFieldD, jsOr, jsTruthy, nestedScan, typeofIsObject,
      looksLikeLead, nameOnlyResolve, jsToString, synthNameLead, jsOrStr_empty,
      webhookIdStr_ne_empty, List.find?]
  · intro nowMs
    refine ⟨?_, rfl, rfl, rfl, rfl⟩
    simp [normalizeWebhook, karliPayload, getField, getFieldD, jsOr, jsTruthy, nestedScan,
      typeofIsObject, looksLikeLead, nameOnlyResolve, jsToString, synthNameLead,
      jsOrStr_empty, webhookIdStr_ne_empty, List.find?]

/-- C9 (witness): the name-only synthesis at the concrete two-token name
"Ann Bee" (first name "Ann", last name "Bee"). -/
theorem claim_C9_witness :
    normalizeWebhook (JVal.jobj [("name", JVal.jstr "Ann Bee")]) 7 =
      Except.ok (synthNameLead "Ann Bee" 7, "webhook-7") :=
  claim_C9.1 "Ann Bee" 7 (by decide)

/-- C1 (counterexample): on the webhook entry point an update always
dispatches the high-score notification — here the stored score is 90,
already at or above the threshold 85 (and the new score 5 is below it),
yet the notification is sent, so the dispatch is not equivalent to a
threshold crossing. -/
theorem claim_C1_counterexample :
    Notification.highScore 5 ∈ (processWebhookLead 0 "t0" pUpd oWebUpd90).notifications ∧
    (storedLead "L1" 90).score = 90 ∧ ¬((90 : Int) < 85) ∧ ((5 : Int) < 85) := by
  refine ⟨by decide, rfl, by decide, by decide⟩

/-- C1 (amended): on the bulk-sync entry point an update dispatches the
high-score notification iff the new score is at/above the threshold and
the stored score was below it; on the webhook entry point an update that
persists a row always dispatches the high-score notification, regardless
of either score. -/
theorem claim_C1 :
    (∀ (threshold : Int) (nowIso : String) (p : JVal) (o : SyncOracle)
       (ld : LeadUpsertData) (score : Int) (ex saved : Lead),
      jsTruthy p = true → isNullish (getFieldD p "id") = false →
      mapSharpSpringToLead p = Except.ok ld → calculateInitialScore p = Except.ok score →
      o.findResult = Except.ok (some ex) → o.writeResult = Except.ok (some saved) →
      (Notification.highScore score ∈ (syncProcessOne threshold nowIso p o).notifications ↔
        (threshold ≤ score ∧ ex.score < threshold))) ∧
    (∀ (nowMs : Nat) (nowIso : String) (p : JVal) (o : WebhookOracle) (lf : JVal)
       (ssId : String) (ld : LeadUpsertData) (score : Int) (ex saved : Lead),
      normalizeWebhook p nowMs = Except.ok (lf, ssId) →
      mapSharpSpringToLead lf = Except.ok ld → calculateInitialScore lf = Except.ok score →
      o.findResult = Except.ok (some ex) → o.writeResult = Except.ok (some saved) →
      Notification.highScore score ∈ (processWebhookLead nowMs nowIso p o).notifications) := by
  constructor
  · intro T nowIso p o ld score ex saved htr hid hmap hscore hfind hwrite
    unfold syncProcessOne
    rw [htr, hid, hmap, hscore, hfind, hwrite]
    by_cases hc1 : T ≤ score <;> by_cases hc2 : ex.score < T <;>
      simp [syncThresholdStep, hc1, hc2]
  · intro nowMs nowIso p o lf ssId ld score ex saved hnorm hmap hscore hfind hwrite
    simp [processWebhookLead, hnorm, hmap, hscore, hfind, hwrite]

/-- C1 (witness): the amended statement at concrete runs — the sync
update with stored score 90 and new score 5 has no crossing and the iff
instantiates to a falsehood on both sides, while the concrete webhook
update dispatches the notification. -/
theorem claim_C1_witness :
    ((Notification.highScore 5 ∈ (syncProcessOne 85 "t0" pUpd oSyncUpd90).notifications ↔
        ((85 : Int) ≤ 5 ∧ (storedLead "L1" 90).score < 85)) ∧
      Notification.highScore 5 ∈ (processWebhookLead 3 "t0" pUpd oWebUpd90).notifications) :=
  ⟨claim_C1.1 85 "t0" pUpd oSyncUpd90 (mapFields pUpd) 5 (storedLead "L1" 90)
      (storedLead "L1" 5) (by rfl) (by rfl) (by rfl) (by rfl) (by rfl) (by rfl),
    claim_C1.2 3 "t0" pUpd oWebUpd90 pUpd "42" (mapFields pUpd) 5 (storedLead "L1" 90)
      (storedLead "L1" 5) (by rfl) (by rfl) (by rfl) (by rfl) (by rfl)⟩

/-- C2 (counterexample): a brand-new lead arriving through the webhook
with initial score 100 (≥ the threshold 85) receives only the new-lead
notification — no high-score notification is dispatched on the webhook
create path. -/
theorem claim_C2_counterexample :
    Notification.newLead 100 ∈ (processWebhookLead 0 "t0" pHigh oWebCreate).notifications ∧
    Notification.highScore 100 ∉ (processWebhookLead 0 "t0" pHigh oWebCreate).notifications ∧
    (85 : Int) ≤ 100 := by
  refine ⟨by decide, by decide, by decide⟩

/-- C2 (amended): a newly created lead always gets the new-lead
notification on both entry points regardless of score; on the bulk-sync
entry point the threshold check additionally runs (with original score
0), so for a positive threshold a new lead at/above it receives both
notifications; on the webhook entry point a new lead receives only the
new-lead notification — the threshold check is not evaluated there. -/
theorem claim_C2 :
    (∀ (threshold : Int) (nowIso : String) (p : JVal) (o : SyncOracle)
       (ld : LeadUpsertData) (score : Int) (saved : Lead),
      jsTruthy p = true → isNullish (getFieldD p "id") = false →
      mapSharpSpringToLead p = Except.ok ld → calculateInitialScore p = Except.ok score →
      o.findResult = Except.ok none → o.writeResult = Except.ok (some saved) →
      (Notification.newLead score ∈ (syncProcessOne threshold nowIso p o).notifications ∧
       (0 < threshold → threshold ≤ score →
         Notification.highScore score ∈ (syncProcessOne threshold nowIso p o).notifications))) ∧
    (∀ (nowMs : Nat) (nowIso : String) (p : JVal) (o : WebhookOracle) (lf : JVal)
       (ssId : String) (ld : LeadUpsertData) (score : Int) (saved : Lead),
      normalizeWebhook p nowMs = Except.ok (lf, ssId) →
      mapSharpSpringToLead lf = Except.ok ld → calculateInitialScore lf = Except.ok score →
      o.findResult = Except.ok none → o.writeResult = Except.ok (some saved) →
      (processWebhookLead nowMs nowIso p o).notifications = [Notification.newLead score]) := by
  constructor
  · intro T nowIso p o ld score saved htr hid hmap hscore hfind hwrite
    unfold syncProcessOne
    rw [htr, hid, hmap, hscore, hfind, hwrite]
    constructor
    · simp
    · intro hpos hge
      simp [syncThresholdStep, hpos, hge]
  · intro nowMs nowIso p o lf ssId ld score saved hnorm hmap hscore hfind hwrite
    simp [processWebhookLead, hnorm, hmap, hscore, hfind, hwrite]

/-- C2 (witness): the amended statement at a concrete create run with
score 100 and threshold 85 — both notifications on bulk-sync, only the
new-lead notification on the webhook. -/
theorem claim_C2_witness :
    (Notification.newLead 100 ∈ (syncProcessOne 85 "t0" pHigh oSyncCreate).notifications ∧
     Notification.highScore 100 ∈ (syncProcessOne 85 "t0" pHigh oSyncCreate).notifications) ∧
    (processWebhookLead 3 "t0" pHigh oWebCreate).notifications = [Notification.newLead 100] := by
  have h := claim_C2.1 85 "t0" pHigh oSyncCreate (mapFields pHigh) 100 (storedLead "L2" 100)
    (by rfl) (by rfl) (by rfl) (by rfl) (by rfl) (by rfl)
  exact ⟨⟨h.1, h.2 (by decide) (by decide)⟩,
    claim_C2.2 3 "t0" pHigh oWebCreate pHigh "h1" (mapFields pHigh) 100 (storedLead "L2" 100)
      (by rfl) (by rfl) (by rfl) (by rfl) (by rfl)⟩

/-- C7 (counterexample): on the bulk-sync entry point a new-lead
notification is attempted (and dispatched) while the notifier returns no
delivery token — and no alert row is appended at all: the log write is
skipped rather than recorded with a placeholder. -/
theorem claim_C7_counterexample :
    Notification.newLead 5 ∈ (syncProcessOne 85 "t0" pUpd oSyncCreateNoTok).notifications ∧
    (syncProcessOne 85 "t0" pUpd oSyncCreateNoTok).alerts = [] := by
  refine ⟨by decide, by rfl⟩

/-- Sync oracle: the lookup finds a stored lead with score 10 (below the
default threshold), the update succeeds, and only the high-score send
returns a token. -/
def oSyncUpdLow : SyncOracle :=
  { findResult := .ok (some (storedLead "L1" 10)), writeResult := .ok (some (storedLead "L1" 100))
    newLeadToken := none, highScoreToken := some "ts-high" }

/-- Sync oracle: the lookup finds a stored lead with score 10, the
update succeeds, and the notifier returns no token for either send. -/
def oSyncUpdLowNoTok : SyncOracle :=
  { findResult := .ok (some (storedLead "L1" 10)), writeResult := .ok (some (storedLead "L1" 100))
    newLeadToken := none, highScoreToken := none }

/-- C7 (amended): on the bulk-sync entry point — for the new-lead send
and for the high-score send alike, on the update path as on the create
path — an alert row is appended exactly when the notifier returned a
truthy delivery token; a missing token skips the log write and no
placeholder is recorded.  On the webhook entry point, when the token is
missing the row is still appended with the placeholder
`webhook_update_alert` / `webhook_notification` provided the Slack
webhook URL is configured; with neither token nor URL the write is
skipped there too. -/
theorem claim_C7 :
    (∀ (threshold : Int) (nowIso : String) (p : JVal) (o : SyncOracle)
       (ld : LeadUpsertData) (score : Int) (saved : Lead),
      jsTruthy p = true → isNullish (getFieldD p "id") = false →
      mapSharpSpringToLead p = Except.ok ld → calculateInitialScore p = Except.ok score →
      o.findResult = Except.ok none → o.writeResult = Except.ok (some saved) →
      ¬(threshold ≤ score) →
      (Notification.newLead score ∈ (syncProcessOne threshold nowIso p o).notifications ∧
       (o.newLeadToken = none → (syncProcessOne threshold nowIso p o).alerts = []) ∧
       (∀ tkn, o.newLeadToken = some tkn → tkn ≠ "" →
         (syncProcessOne threshold nowIso p o).alerts =
           [{ lead_id := saved.id, slack_message_ts := tkn, score_at_send := score }]))) ∧
    (∀ (threshold : Int) (nowIso : String) (p : JVal) (o : SyncOracle)
       (ld : LeadUpsertData) (score : Int) (ex saved : Lead),
      jsTruthy p = true → isNullish (getFieldD p "id") = false →
      mapSharpSpringToLead p = Except.ok ld → calculateInitialScore p = Except.ok score →
      o.findResult = Except.ok (some ex) → o.writeResult = Except.ok (some saved) →
      threshold ≤ score → ex.score < threshold →
      (Notification.highScore score ∈ (syncProcessOne threshold nowIso p o).notifications ∧
       (o.highScoreToken = none → (syncProcessOne threshold nowIso p o).alerts = []) ∧
       (∀ tkn, o.highScoreToken = some tkn → tkn ≠ "" →
         (syncProcessOne threshold nowIso p o).alerts =
           [{ lead_id := saved.id, slack_message_ts := tkn, score_at_send := score }]))) ∧
    (∀ (threshold : Int) (nowIso : String) (p : JVal) (o : SyncOracle)
       (ld : LeadUpsertData) (score : Int) (saved : Lead),
      jsTruthy p = true → isNullish (getFieldD p "id") = false →
      mapSharpSpringToLead p = Except.ok ld → calculateInitialScore p = Except.ok score →
      o.findResult = Except.ok none → o.writeResult = Except.ok (some saved) →
      0 < threshold → threshold ≤ score →
      (Notification.newLead score ∈ (syncProcessOne threshold nowIso p o).notifications ∧
       Notification.highScore score ∈ (syncProcessOne threshold nowIso p o).notifications ∧
       (o.newLeadToken = none → o.highScoreToken = none →
         (syncProcessOne threshold nowIso p o).alerts = []) ∧
       (∀ t1 t2, o.newLeadToken = some t1 → t1 ≠ "" →
         o.highScoreToken = some t2 → t2 ≠ "" →
         (syncProcessOne threshold nowIso p o).alerts =
           [{ lead_id := saved.id, slack_message_ts := t1, score_at_send := score },
            { lead_id := saved.id, slack_message_ts := t2, score_at_send := score }]))) ∧
    (∀ (nowMs : Nat) (nowIso : String) (p : JVal) (o : WebhookOracle) (lf : JVal)
       (ssId : String) (ld : LeadUpsertData) (score : Int) (ex saved : Lead),
      normalizeWebhook p nowMs = Except.ok (lf, ssId) →
      mapSharpSpringToLead lf = Except.ok ld → calculateInitialScore lf = Except.ok score →
      o.findResult = Except.ok (some ex) → o.writeResult = Except.ok (some saved) →
      o.slackToken = none →
      ((o.slackUrlConfigured = true →
         (processWebhookLead nowMs nowIso p o).alerts =
           [{ lead_id := saved.id, slack_message_ts := "webhook_update_alert",
              score_at_send := score }]) ∧
       (o.slackUrlConfigured = false →
         (processWebhookLead nowMs nowIso p o).alerts = []))) ∧
    (∀ (nowMs : Nat) (nowIso : String) (p : JVal) (o : WebhookOracle) (lf : JVal)
       (ssId : String) (ld : LeadUpsertData) (score : Int) (saved : Lead),
      normalizeWebhook p nowMs = Except.ok (lf, ssId) →
      mapSharpSpringToLead lf = Except.ok ld → calculateInitialScore lf = Except.ok score →
      o.findResult = Except.ok none → o.writeResult = Except.ok (some saved) →
      o.slackToken = none → o.slackUrlConfigured = true →
      (processWebhookLead nowMs nowIso p o).alerts =
        [{ lead_id := saved.id, slack_message_ts := "webhook_notification",
           score_at_send := score }]) := by
  refine ⟨?_, ?_, ?_, ?_, ?_⟩
  · intro T nowIso p o ld score saved htr hid hmap hscore hfind hwrite hlow
    unfold syncProcessOne
    rw [htr, hid, hmap, hscore, hfind, hwrite]
    refine ⟨by simp, fun htok => ?_, fun tkn htok hne => ?_⟩
    · simp [syncThresholdStep, tokenAlerts, htok, hlow]
    · simp [syncThresholdStep, tokenAlerts, htok, hne, hlow]
  · intro T nowIso p o ld score ex saved htr hid hmap hscore hfind hwrite hge hlt
    unfold syncProcessOne
    rw [htr, hid, hmap, hscore, hfind, hwrite]
    refine ⟨by simp [syncThresholdStep, hge, hlt], fun htok => ?_, fun tkn htok hne => ?_⟩
    · simp [syncThresholdStep, tokenAlerts, hge, hlt, htok]
    · simp [syncThresholdStep, tokenAlerts, hge, hlt, htok, hne]
  · intro T nowIso p o ld score saved htr hid hmap hscore hfind hwrite hpos hge
    unfold syncProcessOne
    rw [htr, hid, hmap, hscore, hfind, hwrite]
    refine ⟨by simp, by simp [syncThresholdStep, hpos, hge],
      fun h1 h2 => ?_, fun t1 t2 h1 hne1 h2 hne2 => ?_⟩
    · simp [syncThresholdStep, tokenAlerts, hpos, hge, h1, h2]
    · simp [syncThresholdStep, tokenAlerts, hpos, hge, h1, h2, hne1, hne2]
  · intro nowMs nowIso p o lf ssId ld score ex saved hnorm hmap hscore hfind hwrite htok
    constructor <;> intro hurl <;>
      simp [processWebhookLead, hnorm, hmap, hscore, hfind, hwrite, webhookAlerts,
        optTruthy, htok, hurl]
  · intro nowMs nowIso p o lf ssId ld score saved hnorm hmap hscore hfind hwrite htok hurl
    simp [processWebhookLead, hnorm, hmap, hscore, hfind, hwrite, webhookAlerts,
      optTruthy, htok, hurl]

/-- C7 (witness): the amended behaviors at concrete runs — the
token-less sync create logs nothing while notifying, the token-carrying
sync update that crosses the threshold logs the token, the token-less
crossing logs nothing, the token-less webhook update with a configured
URL logs the `webhook_update_alert` placeholder, and the token-less
webhook update with no URL logs nothing. -/
theorem claim_C7_witness :
    (syncProcessOne 85 "t0" pUpd oSyncCreateNoTok).alerts = [] ∧
    (syncProcessOne 85 "t0" pHigh oSyncUpdLow).alerts =
      [{ lead_id := "L1", slack_message_ts := "ts-high", score_at_send := 100 }] ∧
    (syncProcessOne 85 "t0" pHigh oSyncUpdLowNoTok).alerts = [] ∧
    (processWebhookLead 3 "t0" pUpd oWebUpdNoTok).alerts =
      [{ lead_id := "L1", slack_message_ts := "webhook_update_alert", score_at_send := 5 }] ∧
    (processWebhookLead 3 "t0" pUpd oWebUpdNothing).alerts = [] := by
  refine ⟨?_, ?_, ?_, ?_, ?_⟩
  · exact (claim_C7.1 85 "t0" pUpd oSyncCreateNoTok (mapFields pUpd) 5 (storedLead "L2" 5)
      (by rfl) (by rfl) (by rfl) (by rfl) (by rfl) (by rfl) (by decide)).2.1 (by rfl)
  · exact (claim_C7.2.1 85 "t0" pHigh oSyncUpdLow (mapFields pHigh) 100 (storedLead "L1" 10)
      (storedLead "L1" 100) (by rfl) (by rfl) (by rfl) (by rfl) (by rfl) (by rfl)
      (by decide) (by decide)).2.2 "ts-high" (by rfl) (by decide)
  · exact (claim_C7.2.1 85 "t0" pHigh oSyncUpdLowNoTok (mapFields pHigh) 100
      (storedLead "L1" 10) (storedLead "L1" 100) (by rfl) (by rfl) (by rfl) (by rfl)
      (by rfl) (by rfl) (by decide) (by decide)).2.1 (by rfl)
  · exact (claim_C7.2.2.2.1 3 "t0" pUpd oWebUpdNoTok pUpd "42" (mapFields pUpd) 5
      (storedLead "L1" 10) (storedLead "L1" 5)
      (by rfl) (by rfl) (by rfl) (by rfl) (by rfl) (by rfl)).1 (by rfl)
  · exact (claim_C7.2.2.2.1 3 "t0" pUpd oWebUpdNothing pUpd "42" (mapFields pUpd) 5
      (storedLead "L1" 10) (storedLead "L1" 5)
      (by rfl) (by rfl) (by rfl) (by rfl) (by rfl) (by rfl)).2 (by rfl)

set_option linter.unnecessarySeqFocus false in
/-- Folding the batch from any starting summary adds exactly one error
count per iteration whose outcome is errored. -/
theorem foldl_addItem_errorCount (T : Int) (nowIso : String)
    (items : List (JVal × SyncOracle)) (acc : SyncSummary) :
    (items.foldl (fun a it => addItem a (syncProcessOne T nowIso it.1 it.2)) acc).errorCount =
      acc.errorCount + items.countP (fun it => (syncProcessOne T nowIso it.1 it.2).errored) := by
  induction items generalizing acc with
  | nil => simp
  | cons hd tl ih =>
    rw [List.foldl_cons, ih, List.countP_cons]
    by_cases h : (syncProcessOne T nowIso hd.1 hd.2).errored <;>
      simp [addItem, h] <;> omega

set_option linter.unnecessarySeqFocus false in
/-- Folding the batch from any starting summary adds exactly one
processed count per iteration whose outcome is processed. -/
theorem foldl_addItem_processedCount (T : Int) (nowIso : String)
    (items : List (JVal × SyncOracle)) (acc : SyncSummary) :
    (items.foldl (fun a it => addItem a (syncProcessOne T nowIso it.1 it.2)) acc).processedCount =
      acc.processedCount +
        items.countP (fun it => (syncProcessOne T nowIso it.1 it.2).processed) := by
  induction items generalizing acc with
  | nil => simp
  | cons hd tl ih =>
    rw [List.foldl_cons, ih, List.countP_cons]
    by_cases h : (syncProcessOne T nowIso hd.1 hd.2).processed <;>
      simp [addItem, h] <;> omega

/-- A batch of ten payloads of which the fifth hits a store lookup
error. -/
def batch10 : List (JVal × SyncOracle) :=
  [(JVal.jobj [("id", JVal.jstr "1")], oSyncCreateNoTok),
   (JVal.jobj [("id", JVal.jstr "2")], oSyncCreateNoTok),
   (JVal.jobj [("id", JVal.jstr "3")], oSyncCreateNoTok),
   (JVal.jobj [("id", JVal.jstr "4")], oSyncCreateNoTok),
   (JVal.jobj [("id", JVal.jstr "5")],
     { findResult := Except.error "store error", writeResult := Except.ok none
       newLeadToken := none, highScoreToken := none }),
   (JVal.jobj [("id", JVal.jstr "6")], oSyncCreateNoTok),
   (JVal.jobj [("id", JVal.jstr "7")], oSyncCreateNoTok),
   (JVal.jobj [("id", JVal.jstr "8")], oSyncCreateNoTok),
   (JVal.jobj [("id", JVal.jstr "9")], oSyncCreateNoTok),
   (JVal.jobj [("id", JVal.jstr "10")], oSyncCreateNoTok)]

/-- C8: the bulk-sync summary counters decompose per item — an errored
item contributes exactly one error count and nothing stops the fold, so
the remaining payloads are still processed; in particular the ten-item
batch whose fifth item hits a store error reports errorCount 1 and
processedCount 9. -/
theorem claim_C8 :
    (∀ (T : Int) (nowIso : String) (items : List (JVal × SyncOracle)),
      (syncRun T nowIso items).errorCount =
        items.countP (fun it => (syncProcessOne T nowIso it.1 it.2).errored) ∧
      (syncRun T nowIso items).processedCount =
        items.countP (fun it => (syncProcessOne T nowIso it.1 it.2).processed)) ∧
    (syncRun 85 "t0" batch10).errorCount = 1 ∧
    (syncRun 85 "t0" batch10).processedCount = 9 := by
  refine ⟨fun T nowIso items => ⟨?_, ?_⟩, by decide, by decide⟩
  · rw [syncRun, foldl_addItem_errorCount]
    simp [emptySummary]
  · rw [syncRun, foldl_addItem_processedCount]
    simp [emptySummary]

end SpringSync
